import Mathlib

/-!
Verification of the BeeRef image-loading helper (`beeref/fileio/image.py`)
and the AppImage build script (`tools/build_appimage.py`).

The Python code is shallowly embedded: external library calls (Qt image
decoding, `piexif.load`, `urllib.request.urlopen`, `os.path` helpers,
subprocess execution, the filesystem) are abstracted as environment
parameters, while the control flow of the repository's own code is
translated statement by statement.  Side effects (library calls, log
messages, file writes, executed commands) are recorded in explicit event
traces so that claims about them are statable.
-/

namespace BeeRef

/-! ### Model of the Qt image primitives

`QtGui.QImage(path)` decodes an image; `mirrored`/`transformed` build
derived images.  A `QTransform` accumulates a rotation via `rotate`.
Images are modelled symbolically as the tree of constructions performed. -/

structure QTransform where
  rotation : Int
deriving DecidableEq, Repr

/-- `QtGui.QTransform()`: identity transform, rotation 0. -/
def QTransform.init : QTransform := { rotation := 0 }

/-- `transform.rotate(angle)` adds `angle` to the accumulated rotation. -/
def QTransform.rotate (t : QTransform) (angle : Int) : QTransform :=
  { t with rotation := t.rotation + angle }

inductive QImage where
  /-- `QtGui.QImage(path)`; `path = none` models calling with no path. -/
  | decode : Option String → QImage
  /-- `img.mirrored(horizontal=..., vertical=...)`. -/
  | mirrored : QImage → Bool → Bool → QImage
  /-- `img.transformed(transform)`. -/
  | transformed : QImage → QTransform → QImage
deriving DecidableEq, Repr

/-- `piexif.ImageIFD.Orientation` (EXIF tag id 274). -/
def Orientation : Nat := 274

/-- Result of `piexif.load`: we only model the `'0th'` IFD, a dictionary
from tag ids to (integer) tag values. -/
structure ExifDict where
  zeroth : List (Nat × Nat)
deriving DecidableEq, Repr

/-- Log messages and library-call events produced by the loader. -/
inductive LogMsg where
  /-- `logger.exception(f'Exif parser failed on image: {path}')` -/
  | exifParserFailed : Option String → LogMsg
  /-- `logger.debug(f'Downloading image failed: {e.reason}')` -/
  | downloadFailed : LogMsg
  /-- `logger.debug(f'Temporarily saved in: {fname}')` -/
  | temporarilySaved : String → LogMsg
deriving DecidableEq, Repr

inductive FEvent where
  /-- a call to `piexif.load(path)` -/
  | piexifLoad : Option String → FEvent
  /-- a log record emitted via the module logger -/
  | logged : LogMsg → FEvent
  /-- `request.urlopen(url).read()` -/
  | urlopenRead : String → FEvent
  /-- `open(fname, 'wb')` followed by `f.write(data)` -/
  | writeFile : String → List Nat → FEvent
deriving DecidableEq, Repr

/-- Environment abstracting the external libraries used by
`beeref/fileio/image.py`: whether Qt decodes a given path to a null image,
what `piexif.load` returns (or that it raises), what
`request.urlopen(...).read()` returns (or that it raises `URLError`),
the name of the `tempfile.TemporaryDirectory`, and `os.path.normpath`. -/
structure FileIOEnv where
  isNull : Option String → Bool
  piexifLoad : Option String → Except Unit ExifDict
  urlopen : String → Except Unit (List Nat)
  tmpdir : String
  normpath : String → String

/-- `exif_rotated_image(path=None)`, translated from
`beeref/fileio/image.py` lines 29-73.  Returns the resulting image
together with the trace of library calls and log records. -/
def exif_rotated_image (env : FileIOEnv) (path : Option String := none) :
    QImage × List FEvent :=
  let img := QImage.decode path
  if env.isNull path then
    (img, [])
  else
    match env.piexifLoad path with
    | .error _ =>
        (img, [.piexifLoad path, .logged (.exifParserFailed path)])
    | .ok exif_dict =>
        let ev := [FEvent.piexifLoad path]
        match exif_dict.zeroth.lookup Orientation with
        | none => (img, ev)
        | some orientation =>
            let transform := QTransform.init
            if orientation = 2 then
              (img.mirrored true false, ev)
            else if orientation = 3 then
              (img.transformed (transform.rotate 180), ev)
            else if orientation = 4 then
              (img.mirrored false true, ev)
            else if orientation = 5 then
              ((img.transformed (transform.rotate 90)).mirrored true false, ev)
            else if orientation = 6 then
              (img.transformed (transform.rotate 90), ev)
            else if orientation = 7 then
              ((img.transformed (transform.rotate 270)).mirrored true false, ev)
            else if orientation = 8 then
              (img.transformed (transform.rotate 270), ev)
            else (img, ev)

/-- Model of a `QtCore.QUrl` argument as used by `load_image`. -/
structure QUrl where
  isLocalFile : Bool
  toLocalFile : String
  url : String
deriving DecidableEq, Repr

/-- The argument of `load_image`: either a `str` or a `QUrl`. -/
inductive PathArg where
  | str : String → PathArg
  | qurl : QUrl → PathArg
deriving DecidableEq, Repr

/-- `load_image(path)`, translated from `beeref/fileio/image.py`
lines 76-96.  Returns the `(image, path-or-url)` pair together with the
trace of events. -/
def load_image (env : FileIOEnv) (path : PathArg) :
    (QImage × String) × List FEvent :=
  match path with
  | .str s =>
      let p := env.normpath s
      let r := exif_rotated_image env (some p)
      ((r.1, p), r.2)
  | .qurl u =>
      if u.isLocalFile then
        let p := env.normpath u.toLocalFile
        let r := exif_rotated_image env (some p)
        ((r.1, p), r.2)
      else
        let r0 := exif_rotated_image env none
        match env.urlopen u.url with
        | .error _ =>
            ((r0.1, u.url),
              r0.2 ++ [.urlopenRead u.url, .logged .downloadFailed])
        | .ok imgdata =>
            let fname := env.tmpdir ++ "/img"
            let r := exif_rotated_image env (some fname)
            ((r.1, u.url),
              r0.2 ++ [.urlopenRead u.url,
                       .writeFile fname imgdata,
                       .logged (.temporarilySaved fname)] ++ r.2)

/-! ### Model of `tools/build_appimage.py`

The build script is a straight-line sequence of external commands and
filesystem operations.  External results (subprocess exit codes, file
existence, the parsed JSON document, the files found by `os.walk`, and
the `os.path` helpers) are abstracted in `BuildEnv`; the script itself is
translated into a trace-producing computation `BuildM`. -/

/-- Python-level failures the script can raise: a failed
`assert result.returncode == 0` in `run_command`, or a `KeyError` from
indexing the JSON dictionary. -/
inductive PyError where
  | assertionError : Int → PyError
  | keyError : String → PyError
deriving DecidableEq, Repr

/-- Externally visible steps the script performs, in order. -/
inductive BuildStep where
  /-- `urlretrieve(url, filename=filename)` -/
  | urlretrieve : String → String → BuildStep
  /-- `os.chmod(filename, mode)` -/
  | chmod : String → Nat → BuildStep
  /-- `shutil.rmtree(dir)` (FileNotFoundError ignored) -/
  | rmtree : String → BuildStep
  /-- `subprocess.run(args)` via `run_command` -/
  | runCommand : List String → BuildStep
  /-- `open(args.jsonfile).read()` + `json.loads` -/
  | readJsonFile : String → BuildStep
  /-- copy loop: lib skipped because its basename is already in the appimage -/
  | skipLibExisting : String → BuildStep
  /-- copy loop: lib skipped because its basename is in `excludes` -/
  | skipLibExcluded : String → BuildStep
  /-- `os.makedirs(dir, exist_ok=True)` -/
  | makedirs : String → BuildStep
  /-- `shutil.copyfile(src, dest)` -/
  | copyfile : String → String → BuildStep
  /-- `os.remove(name)` -/
  | removeFile : String → BuildStep
  /-- writing `squashfs-root/AppRun` with the given `LD_LIBRARY_PATH` dirs -/
  | writeAppRun : List String → BuildStep
deriving DecidableEq, Repr

/-- A build computation: the trace of steps performed so far, and either a
result or the Python exception that aborted the script. -/
def BuildM (α : Type) : Type := List BuildStep × Except PyError α

/-- Return with an empty trace. -/
def BuildM.ok {α : Type} (a : α) : BuildM α := ([], .ok a)

/-- Sequencing: a raised exception aborts, so no step of the continuation
is performed. -/
def BuildM.bind {α β : Type} (x : BuildM α) (f : α → BuildM β) : BuildM β :=
  match x with
  | (tr, .error e) => (tr, .error e)
  | (tr, .ok a) => (tr ++ (f a).1, (f a).2)

/-- Perform a single step. -/
def BuildM.emit (s : BuildStep) : BuildM Unit := ([s], .ok ())

/-- Environment abstracting the script's command-line arguments and the
external world: subprocess exit codes, `os.path.exists`, the parsed JSON
document, the files found by walking `squashfs-root`, and the `os.path`
string helpers. -/
structure BuildEnv where
  version : String
  jsonfile : String
  redownload : Bool
  skipApt : Bool
  runResult : List String → Int
  fileExists : String → Bool
  jsonData : List (String × List String)
  walkFiles : List String
  basename : String → String
  dirname : String → String
  /-- `os.path.splitext(p)[0]` -/
  splitextRoot : String → String

/-- `run_command(*args)`: runs the subprocess and asserts exit code 0,
aborting the whole script otherwise (lines 58-61). -/
def run_command (env : BuildEnv) (args : List String) : BuildM Unit :=
  ([.runCommand args],
   if env.runResult args = 0 then .ok ()
   else .error (.assertionError (env.runResult args)))

/-- `download_file(url, filename)`: skips the download when the file is
present and `--redownload` was not given, then always chmods 0o755
(lines 64-70). -/
def download_file (env : BuildEnv) (url filename : String) : BuildM Unit :=
  ((if !env.redownload && env.fileExists filename then []
    else [.urlretrieve url filename]) ++ [.chmod filename 0o755],
   .ok ())

def PYVER : String := "3.11"

def APPIMAGE : String :=
  "python3.11.8-cp311-cp311-manylinux_2_28_x86_64.AppImage"

def pythonAppimageUrl : String :=
  "https://github.com/niess/python-appimage/releases/download/python"
    ++ PYVER ++ "/" ++ APPIMAGE

def appimagetoolUrl : String :=
  "https://github.com/AppImage/AppImageKit/releases/download/continuous/appimagetool-x86_64.AppImage"

def extractArgs : List String := ["./python.appimage", "--appimage-extract"]

def pipArgs : List String :=
  ["squashfs-root/usr/bin/pip", "install", ".",
   "--target=squashfs-root/opt/python" ++ PYVER ++ "/lib/python" ++ PYVER ++ "/"]

def aptArgs (packages : List String) : List String :=
  ["sudo", "apt", "install"] ++ packages

/-- `BEEVERSION = args.version.removeprefix('v')`. -/
def beeversion (version : String) : String :=
  if version.startsWith "v" then version.drop 1 else version

def appimagetoolArgs (version : String) : List String :=
  ["./appimagetool.appimage", "squashfs-root",
   "BeeRef-" ++ beeversion version ++ ".appimage", "--no-appstream"]

/-- Reading `libs`, `packages` and `excludes` from the parsed JSON
document (lines 95-97); a missing key raises `KeyError`. -/
def read_json_config (d : List (String × List String)) :
    BuildM (List String × List String × List String) :=
  match d.lookup "libs" with
  | none => ([], .error (.keyError "libs"))
  | some libs =>
      match d.lookup "packages" with
      | none => ([], .error (.keyError "packages"))
      | some packages =>
          match d.lookup "excludes" with
          | none => ([], .error (.keyError "excludes"))
          | some excludes => ([], .ok (libs, packages, excludes))

/-- The body of the library-copy loop for one `lib` (lines 104-123).
`st` is the `paths` set accumulated so far (insertion-ordered, no
duplicates); the result is the updated set and the steps performed. -/
def copy_lib (env : BuildEnv) (existing_files excludes : List String)
    (st : List String) (lib : String) : List String × List BuildStep :=
  if existing_files.contains (env.basename lib) then
    (st, [.skipLibExisting lib])
  else if excludes.contains (env.basename lib) then
    (st, [.skipLibExcluded lib])
  else
    let st := if st.contains (env.dirname lib) then st
              else st ++ [env.dirname lib]
    let filename := if env.fileExists lib then lib else env.splitextRoot lib
    let dest := "squashfs-root" ++ filename
    (st, [.makedirs (env.dirname dest), .copyfile filename dest])

/-- The whole library-copy loop over `libs`. -/
def copy_libs (env : BuildEnv) (existing_files excludes : List String)
    (libs : List String) : List String × List BuildStep :=
  libs.foldl
    (fun acc lib =>
      let r := copy_lib env existing_files excludes acc.1 lib
      (r.1, acc.2 ++ r.2))
    ([], [])

/-- The module top level of `tools/build_appimage.py` (after argument
parsing), lines 74-169, as one trace-producing computation. -/
def build_appimage (env : BuildEnv) : BuildM Unit :=
  BuildM.bind (download_file env pythonAppimageUrl "python.appimage") fun _ =>
  BuildM.bind (BuildM.emit (.rmtree "squashfs-root")) fun _ =>
  BuildM.bind (run_command env extractArgs) fun _ =>
  BuildM.bind (run_command env pipArgs) fun _ =>
  BuildM.bind (BuildM.emit (.readJsonFile env.jsonfile)) fun _ =>
  BuildM.bind (read_json_config env.jsonData) fun cfg =>
  let libs := cfg.1
  let packages := cfg.2.1
  let excludes := cfg.2.2
  BuildM.bind
    (if env.skipApt then BuildM.ok () else run_command env (aptArgs packages))
    fun _ =>
  let existing_files := env.walkFiles
  let copied := copy_libs env existing_files excludes libs
  BuildM.bind ((copied.2, Except.ok ())) fun _ =>
  BuildM.bind (BuildM.emit (.removeFile "squashfs-root/AppRun")) fun _ =>
  let paths := "/usr/lib" :: copied.1
  BuildM.bind (BuildM.emit (.writeAppRun paths)) fun _ =>
  BuildM.bind (BuildM.emit (.chmod "squashfs-root/AppRun" 0o755)) fun _ =>
  BuildM.bind (download_file env appimagetoolUrl "appimagetool.appimage") fun _ =>
  run_command env (appimagetoolArgs env.version)

/-! ### Concrete environments used by the witnesses -/

/-- A loader environment in which decoding succeeds exactly on non-`none`
paths, EXIF parsing yields orientation 3, and downloads fail. -/
def envImgW : FileIOEnv where
  isNull := fun p => p.isNone
  piexifLoad := fun _ => .ok { zeroth := [(Orientation, 3)] }
  urlopen := fun _ => .error ()
  tmpdir := "/tmp/beeref"
  normpath := fun s => s

/-- Like `envImgW` but downloads succeed with three bytes. -/
def envImgOk : FileIOEnv := { envImgW with urlopen := fun _ => .ok [1, 2, 3] }

/-- Like `envImgW` but EXIF parsing raises. -/
def envImgErr : FileIOEnv := { envImgW with piexifLoad := fun _ => .error () }

/-- A non-local URL. -/
def urlRemoteW : QUrl :=
  { isLocalFile := false, toLocalFile := "", url := "http://example.com/a.png" }

/-- A URL referring to a local file. -/
def urlLocalW : QUrl :=
  { isLocalFile := true, toLocalFile := "a//b.png", url := "file:///a//b.png" }

/-- A build environment in which every command succeeds, the JSON file has
all three keys, and `--skip-apt` was given. -/
def envBuildW : BuildEnv where
  version := "v1.0.0"
  jsonfile := "tools/linux_libs.json"
  redownload := false
  skipApt := true
  runResult := fun _ => 0
  fileExists := fun _ => true
  jsonData := [("libs", ["/usr/lib/libfoo.so.1"]),
               ("packages", ["libfoo"]),
               ("excludes", ["libbar.so"])]
  walkFiles := ["libexisting.so"]
  basename := fun s => s
  dirname := fun _ => "/usr/lib"
  splitextRoot := fun s => s.dropRight 2

/-- Like `envBuildW` but the appimage-extract command exits with code 1. -/
def envBuildFail : BuildEnv :=
  { envBuildW with runResult := fun a => if a = extractArgs then 1 else 0 }

/-- Like `envBuildW` but the JSON document has exactly the keys `libs` and
`packages`. -/
def envJsonTwoKeys : BuildEnv :=
  { envBuildW with jsonData := [("libs", []), ("packages", [])] }

/-- `envBuildW`'s JSON document with its entries reordered. -/
def jsonReordered : List (String × List String) :=
  [("excludes", ["libbar.so"]),
   ("packages", ["libfoo"]),
   ("libs", ["/usr/lib/libfoo.so.1"])]

/-! ### Helper lemmas -/

/-- When decoding yields a null image, `exif_rotated_image` returns it at
once with no further library calls. -/
theorem exif_rotated_image_null (env : FileIOEnv) (path : Option String)
    (h : env.isNull path = true) :
    exif_rotated_image env path = (QImage.decode path, []) := by
  simp [exif_rotated_image, h]

/-! ### Claims about `beeref/fileio/image.py` -/

/-- C1: For every image whose EXIF 0th IFD contains an Orientation tag,
`exif_rotated_image` branches on the enumerated orientation value 1-8:
2 mirrors horizontally, 3 rotates 180 degrees, 4 mirrors vertically,
5 rotates 90 degrees then mirrors horizontally, 6 rotates 90 degrees,
7 rotates 270 degrees then mirrors horizontally, 8 rotates 270 degrees,
and 1 yields the untransformed decoded image. -/
theorem exif_orientation_transforms (env : FileIOEnv) (path : Option String)
    (d : ExifDict) (v : Nat)
    (hnull : env.isNull path = false)
    (hexif : env.piexifLoad path = .ok d)
    (hv : d.zeroth.lookup Orientation = some v) :
    (v = 1 → (exif_rotated_image env path).1 = QImage.decode path) ∧
    (v = 2 → (exif_rotated_image env path).1 =
      (QImage.decode path).mirrored true false) ∧
    (v = 3 → (exif_rotated_image env path).1 =
      (QImage.decode path).transformed (QTransform.init.rotate 180)) ∧
    (v = 4 → (exif_rotated_image env path).1 =
      (QImage.decode path).mirrored false true) ∧
    (v = 5 → (exif_rotated_image env path).1 =
      ((QImage.decode path).transformed
        (QTransform.init.rotate 90)).mirrored true false) ∧
    (v = 6 → (exif_rotated_image env path).1 =
      (QImage.decode path).transformed (QTransform.init.rotate 90)) ∧
    (v = 7 → (exif_rotated_image env path).1 =
      ((QImage.decode path).transformed
        (QTransform.init.rotate 270)).mirrored true false) ∧
    (v = 8 → (exif_rotated_image env path).1 =
      (QImage.decode path).transformed (QTransform.init.rotate 270)) := by
  refine ⟨?_, ?_, ?_, ?_, ?_, ?_, ?_, ?_⟩ <;> rintro rfl <;>
    simp [exif_rotated_image, hnull, hexif, hv]

/-- Witness for C1 at orientation value 3: a 180-degree rotation. -/
theorem exif_orientation_transforms_w :
    (exif_rotated_image envImgW (some "pic.jpg")).1 =
      (QImage.decode (some "pic.jpg")).transformed (QTransform.init.rotate 180) :=
  (exif_orientation_transforms envImgW (some "pic.jpg")
    { zeroth := [(Orientation, 3)] } 3 rfl rfl rfl).2.2.1 rfl

/-- C2: when the image decodes but `piexif.load` raises, the exception is
logged and the unrotated decoded image is returned, with no transform
applied. -/
theorem exif_parse_failure_fallback (env : FileIOEnv) (path : Option String)
    (e : Unit)
    (hnull : env.isNull path = false)
    (hexif : env.piexifLoad path = .error e) :
    exif_rotated_image env path =
      (QImage.decode path,
        [.piexifLoad path, .logged (.exifParserFailed path)]) := by
  simp [exif_rotated_image, hnull, hexif]

/-- Witness for C2. -/
theorem exif_parse_failure_fallback_w :
    exif_rotated_image envImgErr (some "broken.jpg") =
      (QImage.decode (some "broken.jpg"),
        [.piexifLoad (some "broken.jpg"),
         .logged (.exifParserFailed (some "broken.jpg"))]) :=
  exif_parse_failure_fallback envImgErr (some "broken.jpg") () rfl rfl

/-- C8: when decoding fails (the constructed QImage is null),
`exif_rotated_image` returns the null image immediately: no EXIF parsing
is attempted (the event trace is empty) and no transform is applied. -/
theorem exif_null_image_short_circuit (env : FileIOEnv) (path : Option String)
    (h : env.isNull path = true) :
    exif_rotated_image env path = (QImage.decode path, []) :=
  exif_rotated_image_null env path h

/-- Witness for C8. -/
theorem exif_null_image_short_circuit_w :
    exif_rotated_image envImgW none = (QImage.decode none, []) :=
  exif_null_image_short_circuit envImgW none rfl

/-- C3: for a non-local URL whose download fails, `load_image` returns the
null image obtained by constructing a QImage with no path, paired with
the URL string; the failure is logged and not propagated. -/
theorem load_image_download_failure (env : FileIOEnv) (u : QUrl)
    (hl : u.isLocalFile = false)
    (hn : env.isNull none = true)
    (hd : env.urlopen u.url = .error ()) :
    load_image env (.qurl u) =
      ((QImage.decode none, u.url),
        [.urlopenRead u.url, .logged .downloadFailed]) := by
  simp [load_image, hl, hd, exif_rotated_image_null env none hn]

/-- Witness for C3. -/
theorem load_image_download_failure_w :
    load_image envImgW (.qurl urlRemoteW) =
      ((QImage.decode none, "http://example.com/a.png"),
        [.urlopenRead "http://example.com/a.png", .logged .downloadFailed]) :=
  load_image_download_failure envImgW urlRemoteW rfl rfl rfl

/-- C5: for a non-local URL whose download succeeds, `load_image`
downloads the bytes, writes them to a file in the temporary directory,
loads the image with EXIF-orientation correction from that temporary
file, and returns that image paired with the URL string. -/
theorem load_image_download_success (env : FileIOEnv) (u : QUrl)
    (imgdata : List Nat)
    (hl : u.isLocalFile = false)
    (hn : env.isNull none = true)
    (hd : env.urlopen u.url = .ok imgdata) :
    load_image env (.qurl u) =
      (((exif_rotated_image env (some (env.tmpdir ++ "/img"))).1, u.url),
        [.urlopenRead u.url,
         .writeFile (env.tmpdir ++ "/img") imgdata,
         .logged (.temporarilySaved (env.tmpdir ++ "/img"))]
          ++ (exif_rotated_image env (some (env.tmpdir ++ "/img"))).2) := by
  simp [load_image, hl, hd, exif_rotated_image_null env none hn]

/-- Witness for C5. -/
theorem load_image_download_success_w :
    load_image envImgOk (.qurl urlRemoteW) =
      (((exif_rotated_image envImgOk (some ("/tmp/beeref" ++ "/img"))).1,
          "http://example.com/a.png"),
        [.urlopenRead "http://example.com/a.png",
         .writeFile ("/tmp/beeref" ++ "/img") [1, 2, 3],
         .logged (.temporarilySaved ("/tmp/beeref" ++ "/img"))]
          ++ (exif_rotated_image envImgOk (some ("/tmp/beeref" ++ "/img"))).2) :=
  load_image_download_success envImgOk urlRemoteW [1, 2, 3] rfl rfl rfl

/-- C9: for a string path, and for a URL referring to a local file,
`load_image` normalizes the path with `os.path.normpath`, loads the image
from the normalized path, and returns the normalized path as the second
element of the result pair. -/
theorem load_image_normalizes_paths (env : FileIOEnv) (s : String)
    (u : QUrl) (hu : u.isLocalFile = true) :
    load_image env (.str s) =
      (((exif_rotated_image env (some (env.normpath s))).1, env.normpath s),
        (exif_rotated_image env (some (env.normpath s))).2) ∧
    load_image env (.qurl u) =
      (((exif_rotated_image env (some (env.normpath u.toLocalFile))).1,
          env.normpath u.toLocalFile),
        (exif_rotated_image env (some (env.normpath u.toLocalFile))).2) := by
  constructor <;> simp [load_image, hu]

/-- Witness for C9. -/
theorem load_image_normalizes_paths_w :
    load_image envImgW (.str "x//y.png") =
      (((exif_rotated_image envImgW (some (envImgW.normpath "x//y.png"))).1,
          envImgW.normpath "x//y.png"),
        (exif_rotated_image envImgW (some (envImgW.normpath "x//y.png"))).2) ∧
    load_image envImgW (.qurl urlLocalW) =
      (((exif_rotated_image envImgW
            (some (envImgW.normpath urlLocalW.toLocalFile))).1,
          envImgW.normpath urlLocalW.toLocalFile),
        (exif_rotated_image envImgW
            (some (envImgW.normpath urlLocalW.toLocalFile))).2) :=
  load_image_normalizes_paths envImgW "x//y.png" urlLocalW rfl

/-! ### Claims about `tools/build_appimage.py` -/

/-- C4: for every external command run through `run_command`, a non-zero
exit code aborts the whole build — the composite computation stops with an
`AssertionError` and performs no later step — while exit code 0 lets the
script continue with the remaining steps. -/
theorem run_command_abort_or_continue (env : BuildEnv) (args : List String)
    {α : Type} (k : Unit → BuildM α) :
    (env.runResult args ≠ 0 →
      BuildM.bind (run_command env args) k =
        ([.runCommand args], .error (.assertionError (env.runResult args)))) ∧
    (env.runResult args = 0 →
      BuildM.bind (run_command env args) k =
        (.runCommand args :: (k ()).1, (k ()).2)) := by
  constructor <;> intro h <;> simp [BuildM.bind, run_command, h]

/-- Witness for C4: with a failing appimage-extract the build stops there;
no step of the continuation appears in the trace. -/
theorem run_command_abort_or_continue_w :
    BuildM.bind (run_command envBuildFail extractArgs)
        (fun _ => BuildM.emit (.rmtree "squashfs-root")) =
      ([.runCommand extractArgs], .error (.assertionError 1)) :=
  (run_command_abort_or_continue envBuildFail extractArgs
    (fun _ => BuildM.emit (.rmtree "squashfs-root"))).1 (by decide)

/-- C6: on a successful run the script performs, in order: download of the
base runtime image, appimage extraction, installation of the application
via pip, the JSON read, the optional apt install, the library-copy steps,
then the launcher script (`AppRun`) is written after the library copy, and
the `appimagetool` packaging command is the last step. -/
theorem build_appimage_success_order (env : BuildEnv)
    (libs packages excludes : List String)
    (hx : env.runResult extractArgs = 0)
    (hp : env.runResult pipArgs = 0)
    (hl : env.jsonData.lookup "libs" = some libs)
    (hpk : env.jsonData.lookup "packages" = some packages)
    (he : env.jsonData.lookup "excludes" = some excludes)
    (hapt : env.skipApt = false → env.runResult (aptArgs packages) = 0)
    (ht : env.runResult (appimagetoolArgs env.version) = 0) :
    build_appimage env =
      ((download_file env pythonAppimageUrl "python.appimage").1
        ++ [.rmtree "squashfs-root",
            .runCommand extractArgs,
            .runCommand pipArgs,
            .readJsonFile env.jsonfile]
        ++ (if env.skipApt then [] else [.runCommand (aptArgs packages)])
        ++ (copy_libs env env.walkFiles excludes libs).2
        ++ [.removeFile "squashfs-root/AppRun",
            .writeAppRun ("/usr/lib" ::
              (copy_libs env env.walkFiles excludes libs).1),
            .chmod "squashfs-root/AppRun" 0o755]
        ++ (download_file env appimagetoolUrl "appimagetool.appimage").1
        ++ [.runCommand (appimagetoolArgs env.version)],
       .ok ()) := by
  by_cases hs : env.skipApt = true
  · simp [build_appimage, BuildM.bind, BuildM.emit, BuildM.ok, download_file,
          run_command, read_json_config, hx, hp, hl, hpk, he, ht, hs]
  · have ha := hapt (by simpa using hs)
    simp [build_appimage, BuildM.bind, BuildM.emit, BuildM.ok, download_file,
          run_command, read_json_config, hx, hp, hl, hpk, he, ht, hs, ha]

/-- Witness for C6. -/
theorem build_appimage_success_order_w :
    build_appimage envBuildW =
      ((download_file envBuildW pythonAppimageUrl "python.appimage").1
        ++ [.rmtree "squashfs-root",
            .runCommand extractArgs,
            .runCommand pipArgs,
            .readJsonFile envBuildW.jsonfile]
        ++ (if envBuildW.skipApt then [] else [.runCommand (aptArgs ["libfoo"])])
        ++ (copy_libs envBuildW envBuildW.walkFiles ["libbar.so"]
              ["/usr/lib/libfoo.so.1"]).2
        ++ [.removeFile "squashfs-root/AppRun",
            .writeAppRun ("/usr/lib" ::
              (copy_libs envBuildW envBuildW.walkFiles ["libbar.so"]
                ["/usr/lib/libfoo.so.1"]).1),
            .chmod "squashfs-root/AppRun" 0o755]
        ++ (download_file envBuildW appimagetoolUrl "appimagetool.appimage").1
        ++ [.runCommand (appimagetoolArgs envBuildW.version)],
       .ok ()) :=
  build_appimage_success_order envBuildW ["/usr/lib/libfoo.so.1"] ["libfoo"]
    ["libbar.so"] rfl rfl rfl rfl rfl (fun _ => rfl) rfl

/-- C7 counterexample: on a JSON document whose keys are exactly `libs`
and `packages` (both present), the build aborts with `KeyError:
'excludes'` — the script reads a third key, so it does not read exactly
the keys `libs` and `packages`. -/
theorem json_two_keys_not_enough :
    (build_appimage envJsonTwoKeys).2 = .error (.keyError "excludes") := by
  rfl

/-- C7 (amended): the JSON document describes shared-library paths and
system packages, and the script reads exactly the keys `libs`, `packages`
and `excludes`: reading succeeds iff all three keys are present, yields
exactly their values, depends on no other key of the document, and a run
fails with a `KeyError` on a document lacking any of the three. -/
theorem read_json_config_three_keys (d d' : List (String × List String)) :
    ((∃ v, (read_json_config d).2 = .ok v) ↔
      ((d.lookup "libs").isSome ∧ (d.lookup "packages").isSome ∧
        (d.lookup "excludes").isSome)) ∧
    (∀ l p e, (read_json_config d).2 = .ok (l, p, e) →
      d.lookup "libs" = some l ∧ d.lookup "packages" = some p ∧
        d.lookup "excludes" = some e) ∧
    (d.lookup "libs" = d'.lookup "libs" →
      d.lookup "packages" = d'.lookup "packages" →
      d.lookup "excludes" = d'.lookup "excludes" →
      read_json_config d = read_json_config d') ∧
    (¬ ((d.lookup "libs").isSome ∧ (d.lookup "packages").isSome ∧
        (d.lookup "excludes").isSome) →
      ∃ k, (read_json_config d).2 = .error (.keyError k)) := by
  refine ⟨?_, ?_, ?_, ?_⟩
  · rcases hl : d.lookup "libs" with _ | l <;>
      rcases hp : d.lookup "packages" with _ | p <;>
        rcases he : d.lookup "excludes" with _ | e <;>
          simp [read_json_config, hl, hp, he]
  · rcases hl : d.lookup "libs" with _ | l <;>
      rcases hp : d.lookup "packages" with _ | p <;>
        rcases he : d.lookup "excludes" with _ | e <;>
          simp [read_json_config, hl, hp, he]
  · intro h1 h2 h3
    unfold read_json_config
    rw [h1, h2, h3]
  · intro h
    rcases hl : d.lookup "libs" with _ | l
    · exact ⟨"libs", by simp [read_json_config, hl]⟩
    · rcases hp : d.lookup "packages" with _ | p
      · exact ⟨"packages", by simp [read_json_config, hl, hp]⟩
      · rcases he : d.lookup "excludes" with _ | e
        · exact ⟨"excludes", by simp [read_json_config, hl, hp, he]⟩
        · exact absurd ⟨by simp [hl], by simp [hp], by simp [he]⟩ h

/-- Witness for the amended C7: the read depends only on the three keys,
so a reordered document gives the same configuration. -/
theorem read_json_config_three_keys_w :
    read_json_config envBuildW.jsonData = read_json_config jsonReordered :=
  (read_json_config_three_keys envBuildW.jsonData jsonReordered).2.2.1
    rfl rfl rfl

/-- C10: in the library-copy loop, an entry is skipped when its basename
is among the files already present under `squashfs-root` or among
`excludes`; otherwise, if the entry's path exists it is copied to the same
path prefixed with `squashfs-root`, and if not, its extension is stripped
and the base file copied instead, creating destination directories as
needed (and recording the entry's directory in the `paths` set). -/
theorem copy_lib_cases (env : BuildEnv)
    (existing_files excludes st : List String) (lib : String) :
    (existing_files.contains (env.basename lib) = true →
      copy_lib env existing_files excludes st lib =
        (st, [.skipLibExisting lib])) ∧
    (existing_files.contains (env.basename lib) = false →
      excludes.contains (env.basename lib) = true →
      copy_lib env existing_files excludes st lib =
        (st, [.skipLibExcluded lib])) ∧
    (existing_files.contains (env.basename lib) = false →
      excludes.contains (env.basename lib) = false →
      env.fileExists lib = true →
      copy_lib env existing_files excludes st lib =
        ((if st.contains (env.dirname lib) then st
          else st ++ [env.dirname lib]),
         [.makedirs (env.dirname ("squashfs-root" ++ lib)),
          .copyfile lib ("squashfs-root" ++ lib)])) ∧
    (existing_files.contains (env.basename lib) = false →
      excludes.contains (env.basename lib) = false →
      env.fileExists lib = false →
      copy_lib env existing_files excludes st lib =
        ((if st.contains (env.dirname lib) then st
          else st ++ [env.dirname lib]),
         [.makedirs (env.dirname ("squashfs-root" ++ env.splitextRoot lib)),
          .copyfile (env.splitextRoot lib)
            ("squashfs-root" ++ env.splitextRoot lib)])) := by
  refine ⟨?_, ?_, ?_, ?_⟩ <;> intros <;> simp_all [copy_lib]

/-- Witness for C10: an existing, non-excluded library is copied to its
own path under `squashfs-root`. -/
theorem copy_lib_cases_w :
    copy_lib envBuildW ["libexisting.so"] ["libbar.so"] []
        "/usr/lib/libfoo.so.1" =
      (["/usr/lib"],
       [.makedirs "/usr/lib",
        .copyfile "/usr/lib/libfoo.so.1"
          "squashfs-root/usr/lib/libfoo.so.1"]) :=
  (copy_lib_cases envBuildW ["libexisting.so"] ["libbar.so"] []
    "/usr/lib/libfoo.so.1").2.2.1 rfl rfl rfl

end BeeRef
